import Mathlib

/-!
Verification development for the excel-import-microservice repository.

Shallow embedding of the bulk import pipeline:
  - src/src/services/import.service.ts   (processImport, validateImport)
  - src/src/repositories/data.repository.ts
      (bulkInsert, bulkInsertWithTVP, tableExists, getTableColumns, inferSqlType)
  - src/unnamed/part_006 = excel.service.ts
      (streamExcelRows, validateExcel, getCellValue, getRowCount)

External effects (the mssql connection pool, the ExcelJS file parse, the
JavaScript Date parser) are modelled as explicit oracle inputs: an
Except-valued outcome for each external call, so the control flow of the
TypeScript source is reproduced exactly while the environment stays abstract.
-/

deriving instance DecidableEq for Except

namespace EIM

/-- Scalar JavaScript values that flow through the pipeline: the value space of
ImportRecord entries plus the boolean/undefined cases accepted by
inferSqlType. JS numbers are modelled as rationals; Number.isInteger(q)
corresponds to q.den = 1. -/
inductive JSVal where
  | null
  | undefinedVal
  | str (s : String)
  | num (q : ℚ)
  | boolean (b : Bool)
  | date (t : ℤ)
deriving DecidableEq, Repr

/-- Cached result of a formula cell, as ExcelJS exposes it: a number, a string,
or some other value already shown via String(...). -/
inductive FormulaRes where
  | num (q : ℚ)
  | str (s : String)
  | other (shown : String)
deriving DecidableEq, Repr

/-- Raw content of a non-empty spreadsheet cell, before getCellValue coercion. -/
inductive CellContent where
  | str (s : String)
  | num (q : ℚ)
  | date (t : ℤ)
  | richText (parts : List String)
  | hyperlink (text : String)
  | formula (result : Option FormulaRes)
deriving DecidableEq, Repr

/-- A spreadsheet row: position i is cell number i+1; none is an empty cell.
Positions past the end of the list are absent cells (ExcelJS iterates eachCell
up to the last cell of the row). -/
abbrev Row := List (Option CellContent)

structure Worksheet where
  name : String
  rows : List Row
deriving DecidableEq, Repr

abbrev Workbook := List Worksheet

/-- An ImportRecord: a JS object, ordered association list from column name to
value (insertion order preserved, as Object.keys does). -/
abbrev ImportRecord := List (String × JSVal)

/-- Model of ExcelService.getCellValue: date cells stay dates, formula cells
resolve to their cached result, rich text flattens, hyperlinks keep their text,
plain scalars pass through, empty cells give null. -/
def getCellValue : Option CellContent → JSVal
  | none => .null
  | some (.date t) => .date t
  | some (.formula none) => .null
  | some (.formula (some (.num q))) => .num q
  | some (.formula (some (.str s))) => .str s
  | some (.formula (some (.other shown))) => .str shown
  | some (.richText parts) => .str (String.join parts)
  | some (.hyperlink text) => .str text
  | some (.str s) => .str s
  | some (.num q) => .num q

/-- Model of the JavaScript String(cell.value) coercion used when reading the
header row. Header cells relevant to the spec are plain strings, where the
model is exact; for the object-valued cells JS prints an object tag. -/
def jsString : CellContent → String
  | .str s => s
  | .num q => toString q
  | .date t => "Date " ++ toString t
  | .richText _ => "[object Object]"
  | .hyperlink _ => "[object Object]"
  | .formula _ => "[object Object]"

/-- Whitespace for the JS String.prototype.trim used on header cells. -/
def isJsSpace (c : Char) : Bool :=
  c == ' ' || c == '\t' || c == '\n' || c == '\r'

/-- String(...).trim() on a header cell, written over the character list so it
evaluates inside the kernel. -/
def jsTrim (s : String) : String :=
  ⟨((s.data.dropWhile isJsSpace).reverse.dropWhile isJsSpace).reverse⟩

/-- The headers array built from the header row: eachCell (default options)
skips empty cells, leaving holes (none); non-empty cells store their trimmed
string form (which may be empty). Mirrors lines 29-33 of excel.service. -/
def headersArr (headerRow : Row) : List (Option String) :=
  headerRow.map (fun c => c.map (fun v => jsTrim (jsString v)))

/-- The effective header for column index i (0-based): the stored string if
present and truthy; the later code guards with `if (header)`, so a hole or an
empty string both mean: no header at this position. -/
def effHeaderAt (headers : List (Option String)) (i : Nat) : Option String :=
  match headers.get? i with
  | some (some s) => if s = "" then none else some s
  | _ => none

/-- JS object property write: overwrite in place if the key exists, else append. -/
def jsObjSet (obj : List (String × JSVal)) (k : String) (v : JSVal) :
    List (String × JSVal) :=
  if obj.any (fun p => p.1 = k) then
    obj.map (fun p => if p.1 = k then (k, v) else p)
  else obj ++ [(k, v)]

/-- One step of the record-building loop over the cells of a data row
(lines 47-59 of excel.service): cells under a truthy header are written into
the record, and hasData becomes true once some written value is neither null
nor the empty string. -/
def buildRecordAux (headers : List (Option String)) :
    List (Option CellContent) → Nat → List (String × JSVal) → Bool →
    List (String × JSVal) × Bool
  | [], _, obj, has => (obj, has)
  | c :: cs, i, obj, has =>
    match effHeaderAt headers i with
    | some h =>
      let v := getCellValue c
      buildRecordAux headers cs (i + 1) (jsObjSet obj h v)
        (has || decide (v ≠ JSVal.null ∧ v ≠ JSVal.str ""))
    | none => buildRecordAux headers cs (i + 1) obj has

def buildRecord (headers : List (Option String)) (r : Row) :
    List (String × JSVal) × Bool :=
  buildRecordAux headers r 0 [] false

/-- A row counts as having values for eachRow (includeEmpty false skips it
otherwise). -/
def rowNonEmpty (r : Row) : Bool := r.any (fun c => c.isSome)

/-- ExcelJS worksheet.rowCount: the 1-based number of the last row that has
values, 0 if none. -/
def lastRowWithValues : List Row → Nat
  | [] => 0
  | r :: rs =>
    let c := lastRowWithValues rs
    if c = 0 then (if rowNonEmpty r then 1 else 0) else c + 1

/-- Model of the eachRow pass of streamExcelRows (lines 41-65): iterate the
non-empty rows in file order with their 1-based row numbers, skip rows up to
the header position 1 + skip, build a record for the rest, and keep it only if
it has data. n is the row number of the first row of the list. -/
def collectRows (headers : List (Option String)) (skip : Nat) :
    List Row → Nat → List ImportRecord
  | [], _ => []
  | r :: rs, n =>
    let rest := collectRows headers skip rs (n + 1)
    if rowNonEmpty r then
      if n ≤ 1 + skip then rest
      else
        let p := buildRecord headers r
        if p.2 then p.1 :: rest else rest
    else rest

/-- The yield loop of streamExcelRows (lines 67-70): for i = 0, 500, 1000, ...
emit batch.slice(i, i + 500). Written with List.range so the value is the
literal sequence of slices the loop produces. -/
def chunk500 (l : List α) : List (List α) :=
  (List.range ((l.length + 499) / 500)).map (fun i => (l.drop (500 * i)).take 500)

/-- Worksheet lookup (lines 20-22): a truthy sheet name selects by name,
otherwise worksheets[0]. -/
def findSheet (wb : Workbook) : Option String → Option Worksheet
  | some s => if s = "" then wb.head? else wb.find? (fun ws => ws.name = s)
  | none => wb.head?

def sheetLabel : Option String → String
  | some s => if s = "" then "default" else s
  | none => "default"

/-- Shared setup of streamExcelRows, getRowCount and validateExcel: the
readFile outcome (an oracle, since the file system is external) followed by
the worksheet lookup, failing with the source error message when the sheet is
missing. -/
def resolveSheet (wbE : Except String Workbook) (sheet : Option String) :
    Except String Worksheet :=
  match wbE with
  | .error e => .error e
  | .ok wb =>
    match findSheet wb sheet with
    | some ws => .ok ws
    | none => .error ("Worksheet " ++ sheetLabel sheet ++ " not found")

/-- worksheet.getRow(n): the row at 1-based position n, empty if absent. -/
def getRowCells (ws : Worksheet) (n : Nat) : Row :=
  (ws.rows.get? (n - 1)).getD []

def headersOf (ws : Worksheet) (skip : Nat) : List (Option String) :=
  headersArr (getRowCells ws (1 + skip))

/-- The state of one run of the streamExcelRows generator. The source first
runs the complete eachRow pass, pushing every admitted row into the single
`batch` array (accumulated here), and only then enters the yield loop
(source comment: Yield all batches after processing all rows), so the whole
accumulated list is in memory before the first batch is yielded. -/
structure StreamRun where
  accumulated : List ImportRecord
  batches : List (List ImportRecord)
deriving DecidableEq, Repr

/-- Model of ExcelService.streamExcelRows (part_006 lines 9-75). -/
def streamExcelRows (wbE : Except String Workbook) (sheet : Option String)
    (skip : Nat) : Except String StreamRun :=
  (resolveSheet wbE sheet).map (fun ws =>
    let headers := headersOf ws skip
    let admitted := collectRows headers skip ws.rows 1
    ⟨admitted, chunk500 admitted⟩)

/-- Model of ExcelService.getRowCount (lines 217-234): resolve the sheet the
same way, then Math.max(0, worksheet.rowCount - (1 + skipRows)), which on
naturals is truncated subtraction. -/
def getRowCount (wbE : Except String Workbook) (sheet : Option String)
    (skip : Nat) : Except String Nat :=
  (resolveSheet wbE sheet).map (fun ws => lastRowWithValues ws.rows - (1 + skip))

/-- SQL Server data types produced by DataRepository.inferSqlType. -/
inductive SqlType where
  | int
  | bit
  | dateTime
  | decimal (p s : Nat)
  | nvarchar (n : Nat)
  | nvarcharMax
deriving DecidableEq, Repr

/-- The regular expression test datePattern.exec(value) for the pattern
matching four digits, a dash, two digits, a dash, two digits at the start of
the string. -/
def datePatternTest (s : String) : Bool :=
  match s.data with
  | y1 :: y2 :: y3 :: y4 :: h1 :: m1 :: m2 :: h2 :: d1 :: d2 :: _ =>
    y1.isDigit && y2.isDigit && y3.isDigit && y4.isDigit && h1 == '-' &&
    m1.isDigit && m2.isDigit && h2 == '-' && d1.isDigit && d2.isDigit
  | _ => false

/-- Model of DataRepository.inferSqlType (lines 202-237). The host call
new Date(value) is external, so its validity test (getTime() not NaN) is the
oracle parsesAsDate; Number.isInteger holds exactly when the rational has
denominator 1. -/
def inferSqlType (parsesAsDate : String → Bool) : JSVal → SqlType
  | .null => .nvarcharMax
  | .undefinedVal => .nvarcharMax
  | .num q => if q.den = 1 then .int else .decimal 18 2
  | .boolean _ => .bit
  | .date _ => .dateTime
  | .str s =>
    if parsesAsDate s && datePatternTest s then .dateTime
    else if s.length > 4000 then .nvarcharMax
    else .nvarchar (if s.length > 255 then 4000 else 255)

/-- JS property read record[col]: undefined when the key is absent. -/
def jsGet (r : ImportRecord) (k : String) : JSVal :=
  match r.find? (fun p => p.1 = k) with
  | some p => p.2
  | none => .undefinedVal

/-- columnMapping?.[col] || col: the mapped name unless the lookup result is
falsy (absent key, or empty string). An absent mapping object behaves like the
empty list. -/
def mapColName (mapping : List (String × String)) (c : String) : String :=
  match mapping.find? (fun p => p.1 = c) with
  | some p => if p.2 = "" then c else p.2
  | none => c

/-- The sql.Table value built by bulkInsertWithTVP (lines 113-133): column
definitions from the first record (mapped names, types inferred from the
sample values) and one row of values per record. -/
structure TvpTable where
  name : String
  columns : List (String × SqlType)
  rows : List (List JSVal)
deriving DecidableEq, Repr

def mkTvpTable (parsesAsDate : String → Bool) (tableName : String)
    (records : List ImportRecord) (sample : ImportRecord)
    (mapping : List (String × String)) : TvpTable :=
  let columns := sample.map (fun p => p.1)
  { name := tableName
    columns := columns.map (fun c =>
      (mapColName mapping c, inferSqlType parsesAsDate (jsGet sample c)))
    rows := records.map (fun r => columns.map (fun c => jsGet r c)) }

structure BatchInsertResult where
  inserted : Nat
  failed : Nat
  errors : List (Nat × String)
deriving DecidableEq, Repr

/-- Model of DataRepository.bulkInsertWithTVP (lines 105-152). bulkOp is the
outcome of the single request.bulk(table) round trip. On an empty batch,
Object.keys(records[0]) raises a TypeError before any database work; when the
bulk call succeeds the whole batch is reported inserted; when it fails the
error is logged and rethrown. -/
def bulkInsertWithTVP (parsesAsDate : String → Bool)
    (bulkOp : TvpTable → Except String Unit) (tableName : String)
    (records : List ImportRecord) (mapping : List (String × String)) :
    Except String BatchInsertResult :=
  match records with
  | [] => .error "TypeError: Cannot convert undefined or null to object"
  | r0 :: _ =>
    match bulkOp (mkTvpTable parsesAsDate tableName records r0 mapping) with
    | .error e => .error e
    | .ok _ => .ok ⟨records.length, 0, []⟩

/-- Outcomes of the transaction primitives used by bulkInsert: begin, one
parameterized INSERT per row (given the 0-based row index and its typed
parameter list), and commit. -/
structure TxnOracle where
  txBegin : Except String Unit
  rowInsert : Nat → String → List (SqlType × JSVal) → Except String Unit
  commit : Except String Unit

/-- The parameterized INSERT statement text built at lines 49-52. -/
def insertQueryFor (tableName : String) (mappedColumns : List String) : String :=
  "INSERT INTO " ++ tableName ++ " (" ++ String.intercalate ", " mappedColumns ++
    ") VALUES (" ++
    String.intercalate ", "
      ((List.range mappedColumns.length).map (fun i => "@col" ++ toString i)) ++
    ")"

/-- The parameters bound for row r (lines 66-71): for each column of the first
record, the inferred type of this row's value and the value. -/
def mkParams (parsesAsDate : String → Bool) (columns : List String)
    (r : ImportRecord) : List (SqlType × JSVal) :=
  columns.map (fun c => (inferSqlType parsesAsDate (jsGet r c), jsGet r c))

/-- The per-row loop of bulkInsert (lines 58-81): count a success or record
(1-based row index, message) and keep going. -/
def insertLoop (parsesAsDate : String → Bool) (o : TxnOracle) (query : String)
    (columns : List String) : List ImportRecord → Nat → Nat × List (Nat × String)
  | [], _ => (0, [])
  | r :: rs, i =>
    let rest := insertLoop parsesAsDate o query columns rs (i + 1)
    match o.rowInsert i query (mkParams parsesAsDate columns r) with
    | .ok _ => (rest.1 + 1, rest.2)
    | .error e => (rest.1, (i + 1, e) :: rest.2)

/-- Model of DataRepository.bulkInsert (lines 26-99): per-row inserts inside
one transaction; row errors are captured and the loop continues; a begin or
commit failure (or the TypeError on an empty batch) rolls back and rethrows. -/
def bulkInsert (parsesAsDate : String → Bool) (o : TxnOracle)
    (tableName : String) (records : List ImportRecord)
    (mapping : List (String × String)) : Except String BatchInsertResult :=
  match o.txBegin with
  | .error e => .error e
  | .ok _ =>
    match records with
    | [] => .error "TypeError: Cannot convert undefined or null to object"
    | r0 :: _ =>
      let columns := r0.map (fun p => p.1)
      let mappedColumns := columns.map (mapColName mapping)
      let query := insertQueryFor tableName mappedColumns
      let res := insertLoop parsesAsDate o query columns records 0
      match o.commit with
      | .error e => .error e
      | .ok _ => .ok ⟨res.1, res.2.length, res.2⟩

/-- Model of DataRepository.tableExists (lines 157-174): the COUNT(*) query
outcome is the oracle; any query error is caught and reported as the table
not existing. -/
def tableExists (q : Except String Nat) : Bool :=
  match q with
  | .error _ => false
  | .ok n => decide (0 < n)

/-- Model of DataRepository.getTableColumns (lines 179-197): query errors are
logged and rethrown, so the call surfaces the oracle outcome unchanged. -/
def getTableColumns (q : Except String (List String)) :
    Except String (List String) := q

/-- The external environment of one import job: the outcome of the
table-existence count query, of the column-metadata query, of the ExcelJS
readFile call, of each batch's request.bulk call (indexed by batch number),
and the JS Date validity test. -/
structure Env where
  tableQuery : Except String Nat
  columnsQuery : Except String (List String)
  workbook : Except String Workbook
  bulkOp : Nat → TvpTable → Except String Unit
  parsesAsDate : String → Bool

/-- Math.round for the non-negative values produced here: floor(q + 1/2). -/
def jsRound (q : ℚ) : ℤ := ⌊q + 1 / 2⌋

structure JobProgress where
  total : Nat
  processed : Nat
  failed : Nat
  percentage : ℤ
deriving DecidableEq, Repr

/-- One progress callback invocation, instrumented with the value of
successCount at the moment the callback fired (ghost data used only by the
statements; the callback itself receives just the JobProgress). -/
structure ProgressEvent where
  success : Nat
  progress : JobProgress
deriving DecidableEq, Repr

structure ImportOutcome where
  successCount : Nat
  failedCount : Nat
deriving DecidableEq, Repr

/-- The batch loop of processImport (import.service lines 53-84): on a batch
whose insert succeeds, accumulate counts and fire a progress callback; on a
batch whose insert raises, add the whole batch length to failedCount and
continue. i is the batch index, s f p the current successCount, failedCount,
processedCount. -/
def importLoop (op : Nat → TvpTable → Except String Unit)
    (parsesAsDate : String → Bool) (tableName : String)
    (mapping : List (String × String)) (total : Nat) :
    List (List ImportRecord) → Nat → Nat → Nat → Nat →
    Nat × Nat × List ProgressEvent
  | [], _, s, f, _ => (s, f, [])
  | b :: bs, i, s, f, p =>
    match bulkInsertWithTVP parsesAsDate (op i) tableName b mapping with
    | .ok r =>
      let s2 := s + r.inserted
      let f2 := f + r.failed
      let p2 := p + b.length
      let ev : ProgressEvent :=
        ⟨s2, ⟨total, p2, f2, jsRound (((p2 : ℚ) / (total : ℚ)) * 100)⟩⟩
      let rest := importLoop op parsesAsDate tableName mapping total bs (i + 1) s2 f2 p2
      (rest.1, rest.2.1, ev :: rest.2.2)
    | .error _ =>
      importLoop op parsesAsDate tableName mapping total bs (i + 1) s (f + b.length) p

/-- Model of ImportService.processImport (lines 10-98). Returns the final
counts and the ordered list of progress events. Wall-clock duration is not
modelled. The generator created at line 47 raises its setup errors at the
first iteration of the for-await loop, outside the per-batch try, so they
propagate exactly like the earlier getRowCount errors. -/
def processImport (env : Env) (tableName : String) (sheet : Option String)
    (mapping : List (String × String)) (skip : Nat) :
    Except String (ImportOutcome × List ProgressEvent) :=
  if tableExists env.tableQuery then
    match getRowCount env.workbook sheet skip with
    | .error e => .error e
    | .ok total =>
      match streamExcelRows env.workbook sheet skip with
      | .error e => .error e
      | .ok run =>
        let out := importLoop env.bulkOp env.parsesAsDate tableName mapping total
          run.batches 0 0 0 0
        .ok (⟨out.1, out.2.1⟩, out.2.2)
  else .error ("Table " ++ tableName ++ " does not exist")

structure VError where
  field : String
  message : String
deriving DecidableEq, Repr

structure ExcelValidationResult where
  isValid : Bool
  errors : List VError
  rowCount : Nat
  columns : List (Option String)
deriving DecidableEq, Repr

/-- The signed local row count of validateExcel, line 131:
worksheet.rowCount - (1 + skipRows) before clamping. -/
def rcOf (ws : Worksheet) (skip : Nat) : ℤ :=
  (lastRowWithValues ws.rows : ℤ) - (1 + skip)

/-- Body of validateExcel once the worksheet is resolved (lines 110-146):
required columns are checked against the headers array; the no-data error
fires only when the signed row count is exactly 0, and the returned rowCount
is clamped with Math.max(0, ...), which on ℤ is toNat. -/
def validateExcelCore (ws : Worksheet) (requiredColumns : List String)
    (skip : Nat) : ExcelValidationResult :=
  let headers := headersOf ws skip
  let missing := requiredColumns.filter
    (fun c => !(headers.any (fun h => h == some c)))
  let colErrs : List VError :=
    if requiredColumns.length > 0 then
      if missing.length > 0 then
        [⟨"columns", "Missing required columns: " ++ String.intercalate ", " missing⟩]
      else []
    else []
  let rc : ℤ := rcOf ws skip
  let rowErrs : List VError :=
    if rc = 0 then [⟨"rows", "Excel file contains no data rows"⟩] else []
  let errs := colErrs ++ rowErrs
  ⟨errs.isEmpty, errs, rc.toNat, headers⟩

/-- Model of ExcelService.validateExcel (part_006 lines 80-161): read failure
and missing worksheet are caught internally and reported as field errors;
otherwise the resolved worksheet is checked by validateExcelCore. -/
def validateExcel (wbE : Except String Workbook) (requiredColumns : List String)
    (sheet : Option String) (skip : Nat) : ExcelValidationResult :=
  match wbE with
  | .error msg =>
    ⟨false, [⟨"file", "Failed to read Excel file: " ++ msg⟩], 0, []⟩
  | .ok wb =>
    match findSheet wb sheet with
    | none =>
      ⟨false, [⟨"worksheet", "Worksheet " ++ sheetLabel sheet ++ " not found"⟩], 0, []⟩
    | some ws => validateExcelCore ws requiredColumns skip

structure ImportValidation where
  isValid : Bool
  errors : List String
  rowCount : Nat
deriving DecidableEq, Repr

/-- Model of ImportService.validateImport (lines 103-151): a missing table is
recorded as an error message but validation proceeds with an empty required
column list; getTableColumns is the only call in the try block that can
throw, and its error lands in the catch branch. -/
def validateImport (env : Env) (tableName : String) (sheet : Option String)
    (skip : Nat) : ImportValidation :=
  let te := tableExists env.tableQuery
  let tableErrs : List String :=
    if te then [] else ["Table " ++ tableName ++ " does not exist"]
  match (if te then getTableColumns env.columnsQuery else .ok []) with
  | .error msg => ⟨false, ["Validation error: " ++ msg], 0⟩
  | .ok requiredColumns =>
    let v := validateExcel env.workbook requiredColumns sheet skip
    let errs := tableErrs ++
      (if v.isValid then [] else v.errors.map (fun e => e.message))
    ⟨errs.isEmpty, errs, v.rowCount⟩

/-- Modelled from the claim and spec wording, for the refinement comparison of
C6 only: a data row is admitted when ANY of its cells coerces to a non-null,
non-empty value, with no regard to whether its column carries a header. -/
def rowHasCoercedData (r : Row) : Bool :=
  r.any (fun c =>
    decide (getCellValue c ≠ JSVal.null ∧ getCellValue c ≠ JSVal.str ""))

/-- Modelled from the claim and spec wording, for the refinement comparison of
C6 only: the row collection the claim describes (rows after the header row
with some non-null, non-empty coerced cell, in file order). -/
def collectRowsSpec (headers : List (Option String)) (skip : Nat) :
    List Row → Nat → List ImportRecord
  | [], _ => []
  | r :: rs, n =>
    let rest := collectRowsSpec headers skip rs (n + 1)
    if n ≤ 1 + skip then rest
    else if rowHasCoercedData r then (buildRecord headers r).1 :: rest else rest

/-- Modelled from the claim and spec wording, for the refinement comparison of
C6 only: the batch sequence the claim asserts streamExcelRows emits. -/
def specBatches (wbE : Except String Workbook) (sheet : Option String)
    (skip : Nat) : Except String (List (List ImportRecord)) :=
  (resolveSheet wbE sheet).map (fun ws =>
    chunk500 (collectRowsSpec (headersOf ws skip) skip ws.rows 1))

/-- The row collection of streamExcelRows with no skip condition left: what
collectRows computes once the row number is past the header position.
Specification device for the length bound on admitted rows. -/
def collectAll (headers : List (Option String)) : List Row → List ImportRecord
  | [] => []
  | r :: rs =>
    let rest := collectAll headers rs
    if rowNonEmpty r then
      (let p := buildRecord headers r
       if p.2 then p.1 :: rest else rest)
    else rest

/-- Total length of the batches whose bulk insert raises, starting at batch
index i: the amount processImport adds to failedCount through its catch
branch. -/
def errLen (op : Nat → TvpTable → Except String Unit) (parsesAsDate : String → Bool)
    (tableName : String) (mapping : List (String × String)) :
    List (List ImportRecord) → Nat → Nat
  | [], _ => 0
  | b :: bs, i =>
    (match bulkInsertWithTVP parsesAsDate (op i) tableName b mapping with
     | .ok _ => 0
     | .error _ => b.length) + errLen op parsesAsDate tableName mapping bs (i + 1)

/-- A 3-row demo sheet: header A and data rows 1 and 2. -/
def wsDemo : Worksheet :=
  ⟨"Sheet1", [[some (.str "A")], [some (.num 1)], [some (.num 2)]]⟩

/-- Environment where everything succeeds on the demo sheet. -/
def envOK : Env := ⟨.ok 1, .ok [], .ok [wsDemo], fun _ _ => .ok (), fun _ => false⟩

/-- The single progress event processImport emits on envOK. The percentage is
kept as the rounding expression the loop builds (its value is 100). -/
def demoEv : ProgressEvent :=
  ⟨2, ⟨2, 2, 0, jsRound ((((2 : Nat) : ℚ) / ((2 : Nat) : ℚ)) * 100)⟩⟩

/-- The progress events processImport emits on envOK. -/
def demoEvs : List ProgressEvent := [demoEv]

/-- The stream run on the demo sheet. -/
def demoRun : StreamRun :=
  ⟨[[("A", .num 1)], [("A", .num 2)]], [[[("A", .num 1)], [("A", .num 2)]]]⟩

/-- A sheet with a header row and 501 identical data rows: two batches. -/
def ws501 : Worksheet :=
  ⟨"Sheet1", [some (CellContent.str "A")] :: List.replicate 501 [some (CellContent.num 1)]⟩

/-- Environment over ws501 where the first batch's bulk insert raises and the
second succeeds. -/
def env501 : Env :=
  ⟨.ok 1, .ok [], .ok [ws501],
   fun i _ => if i = 0 then .error "bulk insert failed" else .ok (), fun _ => false⟩

/-- Sheet for the C6 counterexample: one header A in column 1; the data row is
empty under A but carries the value x in headerless column 2. -/
def wsC6 : Worksheet := ⟨"Sheet1", [[some (.str "A")], [none, some (.str "x")]]⟩

/-- Sheet for the C8 counterexample: a single row, so that skipRows = 1 puts
the header offset strictly past the last row. -/
def wsC8 : Worksheet := ⟨"Sheet1", [[some (.str "A")]]⟩

/-- Environment over wsC8 with an existing table and no table columns. -/
def envC8 : Env := ⟨.ok 1, .ok [], .ok [wsC8], fun _ _ => .ok (), fun _ => false⟩

/-- 500 identical one-column records, the per-row demo batch of C5. -/
def demo500 : List ImportRecord := List.replicate 500 [("A", JSVal.num 1)]

/-- Transaction oracle where exactly the row at 0-based index 249 (row 250)
fails its insert. -/
def oracle500 : TxnOracle :=
  ⟨.ok (),
   fun i _ _ => if i = 249 then .error "Conversion failed for row value" else .ok (),
   .ok ()⟩

/-- A Date parse oracle that accepts nothing. -/
def dateNever : String → Bool := fun _ => false

/-! Helper lemmas about the batching loop of streamExcelRows. -/

theorem chunk500_nil {α : Type _} : chunk500 ([] : List α) = [] := by
  simp [chunk500]

theorem chunk500_cons {α : Type _} (l : List α) (h : l ≠ []) :
    chunk500 l = l.take 500 :: chunk500 (l.drop 500) := by
  have hn : 0 < l.length := List.length_pos.mpr h
  have hk : (l.length + 499) / 500 = ((l.drop 500).length + 499) / 500 + 1 := by
    rw [List.length_drop]; omega
  unfold chunk500
  rw [hk, List.range_succ_eq_map, List.map_cons, List.map_map]
  refine congrArg₂ _ (by simp) (List.map_congr_left (fun i _ => ?_))
  show (l.drop (500 * (i + 1))).take 500 = ((l.drop 500).drop (500 * i)).take 500
  rw [List.drop_drop, show 500 + 500 * i = 500 * (i + 1) from by omega]

theorem chunk500_flatten_aux {α : Type _} :
    ∀ (n : Nat) (l : List α), l.length ≤ n → (chunk500 l).flatten = l
  | _, [], _ => by simp [chunk500_nil]
  | 0, x :: xs, h => by simp at h
  | n + 1, x :: xs, h => by
    rw [chunk500_cons _ (by simp), List.flatten_cons,
      chunk500_flatten_aux n ((x :: xs).drop 500)
        (by rw [List.length_drop]; simp at h ⊢; omega),
      List.take_append_drop]

theorem chunk500_flatten {α : Type _} (l : List α) : (chunk500 l).flatten = l :=
  chunk500_flatten_aux l.length l le_rfl

theorem mem_chunk500 {α : Type _} {l : List α} {b : List α} (hb : b ∈ chunk500 l) :
    0 < b.length ∧ b.length ≤ 500 := by
  unfold chunk500 at hb
  obtain ⟨i, hi, rfl⟩ := List.mem_map.mp hb
  rw [List.mem_range] at hi
  constructor
  · rw [List.length_take, List.length_drop]
    omega
  · exact List.length_take_le _ _

theorem chunk500_full {α : Type _} {l : List α} {i : Nat} {b : List α}
    (h1 : i + 1 < (chunk500 l).length) (h2 : (chunk500 l)[i]? = some b) :
    b.length = 500 := by
  unfold chunk500 at h1 h2
  rw [List.length_map, List.length_range] at h1
  rw [List.getElem?_map, List.getElem?_range (by omega)] at h2
  simp at h2
  rw [← h2, List.length_take, List.length_drop]
  omega

/-! Helper lemmas about the row-collection pass of streamExcelRows. -/

theorem collectRows_past (headers : List (Option String)) (skip : Nat) :
    ∀ (rows : List Row) (n : Nat), 1 + skip < n →
      collectRows headers skip rows n = collectAll headers rows
  | [], _, _ => rfl
  | r :: rs, n, h => by
    simp only [collectRows, collectAll,
      collectRows_past headers skip rs (n + 1) (by omega)]
    simp [show ¬(n ≤ 1 + skip) from by omega]

theorem collectRows_drop (headers : List (Option String)) (skip : Nat) :
    ∀ (rows : List Row) (n : Nat), 1 ≤ n → n ≤ 2 + skip →
      collectRows headers skip rows n = collectAll headers (rows.drop (2 + skip - n))
  | [], n, _, _ => by simp [collectRows, collectAll]
  | r :: rs, n, h1, h2 => by
    by_cases hn : n = 2 + skip
    · subst hn
      simp only [Nat.sub_self, List.drop_zero]
      exact collectRows_past headers skip (r :: rs) (2 + skip) (by omega)
    · have hle : n ≤ 1 + skip := by omega
      have hstep : collectRows headers skip (r :: rs) n = collectRows headers skip rs (n + 1) := by
        simp only [collectRows]
        simp [hle]
      rw [hstep, collectRows_drop headers skip rs (n + 1) (by omega) (by omega),
        show 2 + skip - n = (2 + skip - (n + 1)) + 1 from by omega,
        List.drop_succ_cons]

theorem collectAll_length_le (headers : List (Option String)) :
    ∀ rows : List Row, (collectAll headers rows).length ≤ lastRowWithValues rows
  | [] => le_rfl
  | r :: rs => by
    have ih := collectAll_length_le headers rs
    cases h1 : rowNonEmpty r <;> cases h2 : (buildRecord headers r).2 <;>
      simp only [collectAll, lastRowWithValues, h1, h2, Bool.false_eq_true,
        if_false, if_true, List.length_cons] <;>
      split <;> omega

theorem lastRowWithValues_drop :
    ∀ (k : Nat) (rows : List Row),
      lastRowWithValues (rows.drop k) = lastRowWithValues rows - k
  | 0, rows => by simp
  | k + 1, [] => by simp [lastRowWithValues]
  | k + 1, r :: rs => by
    rw [List.drop_succ_cons, lastRowWithValues_drop k rs]
    simp only [lastRowWithValues]
    split <;> (try split) <;> omega

/-- The number of admitted data rows never exceeds the progress denominator
worksheet.rowCount - (1 + skipRows). -/
theorem collectRows_length_le (headers : List (Option String)) (skip : Nat)
    (rows : List Row) :
    (collectRows headers skip rows 1).length ≤ lastRowWithValues rows - (1 + skip) := by
  rw [collectRows_drop headers skip rows 1 le_rfl (by omega),
    show 2 + skip - 1 = 1 + skip from by omega]
  calc (collectAll headers (rows.drop (1 + skip))).length
      ≤ lastRowWithValues (rows.drop (1 + skip)) := collectAll_length_le _ _
    _ = lastRowWithValues rows - (1 + skip) := lastRowWithValues_drop _ _

/-! Helper lemmas about the orchestrator loop. -/

/-- A normal return of bulkInsertWithTVP always reports the full batch
inserted, zero failed, no errors. -/
theorem bulkInsertWithTVP_ok_shape {pd : String → Bool}
    {bulkOp : TvpTable → Except String Unit} {tn : String}
    {records : List ImportRecord} {mp : List (String × String)}
    {res : BatchInsertResult}
    (h : bulkInsertWithTVP pd bulkOp tn records mp = .ok res) :
    res = ⟨records.length, 0, []⟩ := by
  cases records with
  | nil => simp [bulkInsertWithTVP] at h
  | cons r0 rs =>
    simp only [bulkInsertWithTVP] at h
    cases hop : bulkOp (mkTvpTable pd tn (r0 :: rs) r0 mp) <;> rw [hop] at h <;>
      simp_all

theorem importLoop_cons_ok {op : Nat → TvpTable → Except String Unit}
    {pd : String → Bool} {tn : String} {mp : List (String × String)} {total : Nat}
    {b : List ImportRecord} {bs : List (List ImportRecord)} {i s f p : Nat}
    {r : BatchInsertResult}
    (hop : bulkInsertWithTVP pd (op i) tn b mp = .ok r) :
    importLoop op pd tn mp total (b :: bs) i s f p =
      ((importLoop op pd tn mp total bs (i + 1) (s + r.inserted) (f + r.failed)
          (p + b.length)).1,
       (importLoop op pd tn mp total bs (i + 1) (s + r.inserted) (f + r.failed)
          (p + b.length)).2.1,
       (⟨s + r.inserted,
         ⟨total, p + b.length, f + r.failed,
          jsRound ((((p + b.length : Nat) : ℚ) / (total : ℚ)) * 100)⟩⟩ : ProgressEvent) ::
         (importLoop op pd tn mp total bs (i + 1) (s + r.inserted) (f + r.failed)
           (p + b.length)).2.2) := by
  simp only [importLoop, hop]

theorem importLoop_cons_err {op : Nat → TvpTable → Except String Unit}
    {pd : String → Bool} {tn : String} {mp : List (String × String)} {total : Nat}
    {b : List ImportRecord} {bs : List (List ImportRecord)} {i s f p : Nat}
    {e : String}
    (hop : bulkInsertWithTVP pd (op i) tn b mp = .error e) :
    importLoop op pd tn mp total (b :: bs) i s f p =
      importLoop op pd tn mp total bs (i + 1) s (f + b.length) p := by
  simp only [importLoop, hop]

theorem errLen_cons_ok {op : Nat → TvpTable → Except String Unit}
    {pd : String → Bool} {tn : String} {mp : List (String × String)}
    {b : List ImportRecord} {bs : List (List ImportRecord)} {i : Nat}
    {r : BatchInsertResult}
    (hop : bulkInsertWithTVP pd (op i) tn b mp = .ok r) :
    errLen op pd tn mp (b :: bs) i = errLen op pd tn mp bs (i + 1) := by
  simp only [errLen, hop]
  omega

theorem errLen_cons_err {op : Nat → TvpTable → Except String Unit}
    {pd : String → Bool} {tn : String} {mp : List (String × String)}
    {b : List ImportRecord} {bs : List (List ImportRecord)} {i : Nat}
    {e : String}
    (hop : bulkInsertWithTVP pd (op i) tn b mp = .error e) :
    errLen op pd tn mp (b :: bs) i = b.length + errLen op pd tn mp bs (i + 1) := by
  simp only [errLen, hop]

/-- failedCount after the loop: the starting value plus the lengths of the
batches whose insert raised. -/
theorem importLoop_failed (op : Nat → TvpTable → Except String Unit)
    (pd : String → Bool) (tn : String) (mp : List (String × String)) (total : Nat) :
    ∀ (bs : List (List ImportRecord)) (i s f p : Nat),
      (importLoop op pd tn mp total bs i s f p).2.1 = f + errLen op pd tn mp bs i
  | [], _, _, _, _ => by simp [importLoop, errLen]
  | b :: bs, i, s, f, p => by
    cases hop : bulkInsertWithTVP pd (op i) tn b mp with
    | ok r =>
      rw [importLoop_cons_ok hop, errLen_cons_ok hop,
        importLoop_failed op pd tn mp total bs (i + 1)]
      have hr := bulkInsertWithTVP_ok_shape hop
      subst hr
      dsimp only
      omega
    | error e =>
      rw [importLoop_cons_err hop, errLen_cons_err hop,
        importLoop_failed op pd tn mp total bs (i + 1)]
      omega

/-- successCount + failedCount after the loop accounts for every batch:
the loop continues past failed batches. -/
theorem importLoop_total_counts (op : Nat → TvpTable → Except String Unit)
    (pd : String → Bool) (tn : String) (mp : List (String × String)) (total : Nat) :
    ∀ (bs : List (List ImportRecord)) (i s f p : Nat),
      (importLoop op pd tn mp total bs i s f p).1 +
        (importLoop op pd tn mp total bs i s f p).2.1 =
        s + f + (bs.map List.length).sum
  | [], _, _, _, _ => by simp [importLoop]
  | b :: bs, i, s, f, p => by
    cases hop : bulkInsertWithTVP pd (op i) tn b mp with
    | ok r =>
      rw [importLoop_cons_ok hop]
      simp only [importLoop_total_counts op pd tn mp total bs (i + 1),
        List.map_cons, List.sum_cons]
      have hr := bulkInsertWithTVP_ok_shape hop
      subst hr
      dsimp only
      omega
    | error e =>
      rw [importLoop_cons_err hop]
      simp only [importLoop_total_counts op pd tn mp total bs (i + 1),
        List.map_cons, List.sum_cons]
      omega

/-- Shape of every emitted progress event, under the loop invariant
successCount = processedCount (which holds because a successful TVP batch
always reports inserted = batch length). -/
theorem importLoop_events (op : Nat → TvpTable → Except String Unit)
    (pd : String → Bool) (tn : String) (mp : List (String × String)) (total : Nat) :
    ∀ (bs : List (List ImportRecord)) (i f p : Nat),
      ∀ ev ∈ (importLoop op pd tn mp total bs i p f p).2.2,
        ev.success = ev.progress.processed ∧
        ev.progress.total = total ∧
        ev.progress.percentage =
          jsRound (((ev.progress.processed : ℚ) / (total : ℚ)) * 100) ∧
        p ≤ ev.progress.processed ∧
        ev.progress.processed ≤ p + (bs.map List.length).sum
  | [], i, f, p => by simp [importLoop]
  | b :: bs, i, f, p => by
    intro ev hev
    cases hop : bulkInsertWithTVP pd (op i) tn b mp with
    | ok r =>
      have hr := bulkInsertWithTVP_ok_shape hop
      subst hr
      rw [importLoop_cons_ok hop] at hev
      rcases List.mem_cons.mp hev with hev0 | hevr
      · subst hev0
        refine ⟨rfl, rfl, rfl, by simp, ?_⟩
        dsimp only
        simp only [List.map_cons, List.sum_cons]
        omega
      · have := importLoop_events op pd tn mp total bs (i + 1) (f + 0)
          (p + b.length) ev hevr
        refine ⟨this.1, this.2.1, this.2.2.1, by omega, ?_⟩
        have h2 := this.2.2.2.2
        simp only [List.map_cons, List.sum_cons]
        omega
    | error e =>
      rw [importLoop_cons_err hop] at hev
      have := importLoop_events op pd tn mp total bs (i + 1) (f + b.length) p ev hev
      refine ⟨this.1, this.2.1, this.2.2.1, this.2.2.2.1, ?_⟩
      have h2 := this.2.2.2.2
      simp only [List.map_cons, List.sum_cons]
      omega

/-- The processed values of the emitted events are non-decreasing in emission
order. -/
theorem importLoop_chain (op : Nat → TvpTable → Except String Unit)
    (pd : String → Bool) (tn : String) (mp : List (String × String)) (total : Nat) :
    ∀ (bs : List (List ImportRecord)) (i f p : Nat),
      List.Chain' (fun a b : ProgressEvent =>
          a.progress.processed ≤ b.progress.processed)
        (importLoop op pd tn mp total bs i p f p).2.2
  | [], i, f, p => by simp [importLoop]
  | b :: bs, i, f, p => by
    cases hop : bulkInsertWithTVP pd (op i) tn b mp with
    | ok r =>
      have hr := bulkInsertWithTVP_ok_shape hop
      subst hr
      rw [importLoop_cons_ok hop]
      refine List.chain'_cons'.mpr ⟨?_, importLoop_chain op pd tn mp total bs (i + 1) (f + 0) (p + b.length)⟩
      intro y hy
      have hmem := List.mem_of_mem_head? hy
      exact (importLoop_events op pd tn mp total bs (i + 1) (f + 0)
        (p + b.length) y hmem).2.2.2.1
    | error e =>
      rw [importLoop_cons_err hop]
      exact importLoop_chain op pd tn mp total bs (i + 1) (f + b.length) p

/-! Per-row insert loop accounting. -/

theorem insertLoop_counts (pd : String → Bool) (o : TxnOracle) (query : String)
    (columns : List String) :
    ∀ (records : List ImportRecord) (i : Nat),
      (insertLoop pd o query columns records i).1 +
        (insertLoop pd o query columns records i).2.length = records.length
  | [], _ => rfl
  | r :: rs, i => by
    have ih := insertLoop_counts pd o query columns rs (i + 1)
    simp only [insertLoop]
    cases hop : o.rowInsert i query (mkParams pd columns r) <;>
      simp only [hop, List.length_cons] <;> omega

/-- When the workbook reads and the worksheet resolves, validateExcel is its
core check on that worksheet. -/
theorem validateExcel_resolved {wbE : Except String Workbook}
    {sheet : Option String} {ws : Worksheet}
    (h : resolveSheet wbE sheet = .ok ws) (req : List String) (skip : Nat) :
    validateExcel wbE req sheet skip = validateExcelCore ws req skip := by
  cases wbE with
  | error e => simp [resolveSheet] at h
  | ok wb =>
    simp only [resolveSheet] at h
    cases hfs : findSheet wb sheet with
    | none => rw [hfs] at h; cases h
    | some ws2 =>
      rw [hfs] at h
      simp only [Except.ok.injEq] at h
      subst h
      simp [validateExcel, hfs]

/-- When the signed local row count is exactly zero, the core check reports
the no-data-rows error, is invalid, and returns rowCount 0, for any required
column list. -/
theorem validateExcelCore_zero (ws : Worksheet) (req : List String) (skip : Nat)
    (hz : lastRowWithValues ws.rows = 1 + skip) :
    (validateExcelCore ws req skip).isValid = false ∧
    (⟨"rows", "Excel file contains no data rows"⟩ : VError) ∈
      (validateExcelCore ws req skip).errors ∧
    (validateExcelCore ws req skip).rowCount = 0 := by
  have h0 : rcOf ws skip = 0 := by unfold rcOf; omega
  simp only [validateExcelCore, h0, if_pos rfl]
  refine ⟨?_, ?_, rfl⟩
  · simp
  · simp

/-! Claim theorems. -/

/-- C4: bulkInsertWithTVP is all-or-nothing on every non-empty batch: a normal
return reports inserted = batch size, failed = 0 and an empty error list, and
an error from the single bulk round trip makes the whole call raise instead of
reporting partial success. -/
theorem c4_tvp_atomic (pd : String → Bool) (bulkOp : TvpTable → Except String Unit)
    (tn : String) (mp : List (String × String)) (r0 : ImportRecord)
    (rest : List ImportRecord) (records : List ImportRecord)
    (hrec : records = r0 :: rest) :
    (∀ res, bulkInsertWithTVP pd bulkOp tn records mp = .ok res →
      res.inserted = records.length ∧ res.failed = 0 ∧ res.errors = []) ∧
    (∀ e, bulkOp (mkTvpTable pd tn records r0 mp) = .error e →
      bulkInsertWithTVP pd bulkOp tn records mp = .error e) := by
  subst hrec
  constructor
  · intro res h
    have hsh := bulkInsertWithTVP_ok_shape h
    subst hsh
    exact ⟨rfl, rfl, rfl⟩
  · intro e he
    simp only [bulkInsertWithTVP, he]

/-- Witness for C4 at a concrete one-record batch whose bulk call fails. -/
theorem c4_tvp_atomic_witness :
    bulkInsertWithTVP dateNever (fun _ => .error "row conversion error")
      "TargetTable" [[("A", JSVal.num 1)]] [] = .error "row conversion error" :=
  (c4_tvp_atomic dateNever (fun _ => .error "row conversion error") "TargetTable"
    [] [("A", JSVal.num 1)] [] [[("A", JSVal.num 1)]] rfl).2 "row conversion error" rfl

set_option maxRecDepth 4000 in
/-- C5: under the per-row strategy every row either increments inserted or
contributes exactly one (1-based row index, message) error, so
inserted + failed = N on every normal return; concretely, a 500-row batch
whose row 250 alone fails yields inserted = 499, failed = 1 with row 250's
error recorded. -/
theorem c5_per_row_accounting :
    (∀ (pd : String → Bool) (o : TxnOracle) (tn : String)
        (records : List ImportRecord) (mp : List (String × String))
        (res : BatchInsertResult),
      bulkInsert pd o tn records mp = .ok res →
        res.inserted + res.failed = records.length ∧
        res.failed = res.errors.length) ∧
    bulkInsert dateNever oracle500 "TargetTable" demo500 [] =
      .ok ⟨499, 1, [(250, "Conversion failed for row value")]⟩ := by
  constructor
  · intro pd o tn records mp res h
    simp only [bulkInsert] at h
    cases hb : o.txBegin <;> rw [hb] at h
    · simp at h
    · cases records with
      | nil => simp at h
      | cons r0 rs =>
        simp only at h
        cases hc : o.commit <;> rw [hc] at h
        · simp at h
        · simp only [Except.ok.injEq] at h
          subst h
          refine ⟨?_, rfl⟩
          exact insertLoop_counts pd o _ _ (r0 :: rs) 0
  · decide

/-- Witness for C5's general accounting at the concrete 500-row batch. -/
theorem c5_per_row_accounting_witness :
    (499 : Nat) + 1 = demo500.length ∧
    (1 : Nat) = [((250 : Nat), "Conversion failed for row value")].length :=
  c5_per_row_accounting.1 dateNever oracle500 "TargetTable" demo500 []
    ⟨499, 1, [(250, "Conversion failed for row value")]⟩
    c5_per_row_accounting.2

/-- C7: inferSqlType maps null/undefined to NVarChar(MAX), integral numbers to
Int, non-integral numbers to Decimal(18,2), booleans to Bit, dates to
DateTime, ISO-looking strings that parse as dates to DateTime, and other
strings to NVarChar(255) / NVarChar(4000) / NVarChar(MAX) by length tier. -/
theorem c7_infer_sql_type (pd : String → Bool) :
    inferSqlType pd .null = .nvarcharMax ∧
    inferSqlType pd .undefinedVal = .nvarcharMax ∧
    (∀ q : ℚ, q.den = 1 → inferSqlType pd (.num q) = .int) ∧
    (∀ q : ℚ, q.den ≠ 1 → inferSqlType pd (.num q) = .decimal 18 2) ∧
    (∀ b : Bool, inferSqlType pd (.boolean b) = .bit) ∧
    (∀ t : ℤ, inferSqlType pd (.date t) = .dateTime) ∧
    (∀ s : String, datePatternTest s = true → pd s = true →
      inferSqlType pd (.str s) = .dateTime) ∧
    (∀ s : String, ¬(pd s = true ∧ datePatternTest s = true) → s.length ≤ 255 →
      inferSqlType pd (.str s) = .nvarchar 255) ∧
    (∀ s : String, ¬(pd s = true ∧ datePatternTest s = true) → 256 ≤ s.length →
      s.length ≤ 4000 → inferSqlType pd (.str s) = .nvarchar 4000) ∧
    (∀ s : String, ¬(pd s = true ∧ datePatternTest s = true) → 4000 < s.length →
      inferSqlType pd (.str s) = .nvarcharMax) := by
  refine ⟨rfl, rfl, ?_, ?_, fun b => rfl, fun t => rfl, ?_, ?_, ?_, ?_⟩
  · intro q hq; simp [inferSqlType, hq]
  · intro q hq; simp [inferSqlType, hq]
  · intro s h1 h2; simp [inferSqlType, h1, h2]
  · intro s hnd hlen
    have hb : (pd s && datePatternTest s) = false := by
      rcases h1 : pd s <;> rcases h2 : datePatternTest s <;> simp_all
    simp [inferSqlType, hb, show ¬(s.length > 4000) from by omega,
      show ¬(s.length > 255) from by omega]
  · intro s hnd hlo hhi
    have hb : (pd s && datePatternTest s) = false := by
      rcases h1 : pd s <;> rcases h2 : datePatternTest s <;> simp_all
    simp [inferSqlType, hb, show ¬(s.length > 4000) from by omega,
      show s.length > 255 from by omega]
  · intro s hnd hlen
    have hb : (pd s && datePatternTest s) = false := by
      rcases h1 : pd s <;> rcases h2 : datePatternTest s <;> simp_all
    simp [inferSqlType, hb, show s.length > 4000 from by omega]

/-- Witness for C7 at an integral number and a short plain string. -/
theorem c7_infer_sql_type_witness :
    inferSqlType dateNever (.num 3) = .int ∧
    inferSqlType dateNever (.str "hello") = .nvarchar 255 :=
  ⟨(c7_infer_sql_type dateNever).2.2.1 3 (by decide),
   (c7_infer_sql_type dateNever).2.2.2.2.2.2.2.1 "hello"
     (by intro h; simp [dateNever] at h) (by decide)⟩

/-- C10: a failing table-existence query (for example an unreachable database)
is reported as the table not existing: tableExists returns false, processImport
fails with the missing-table message, and validateImport records the same
missing-table error, so an outage is indistinguishable from a missing table at
the public interface. -/
theorem c10_outage_as_missing_table (e : String) (cq : Except String (List String))
    (wk : Except String Workbook) (bo : Nat → TvpTable → Except String Unit)
    (pda : String → Bool) (tn : String) (sheet : Option String)
    (mp : List (String × String)) (skip : Nat) :
    tableExists (.error e) = false ∧
    processImport ⟨.error e, cq, wk, bo, pda⟩ tn sheet mp skip =
      .error ("Table " ++ tn ++ " does not exist") ∧
    ("Table " ++ tn ++ " does not exist") ∈
      (validateImport ⟨.error e, cq, wk, bo, pda⟩ tn sheet skip).errors ∧
    (validateImport ⟨.error e, cq, wk, bo, pda⟩ tn sheet skip).isValid = false := by
  refine ⟨rfl, ?_, ?_, ?_⟩
  · simp [processImport, tableExists]
  · simp [validateImport, tableExists, getTableColumns]
  · simp [validateImport, tableExists, getTableColumns]

/-- C6 counterexample: on wsC6 the data row's only non-empty cell sits in a
column without a header, so the code emits no batch at all, while the batch
sequence described by the claim (admission by any non-empty coerced cell)
contains that row. The claimed equality fails at this input. -/
theorem c6_counterexample :
    (streamExcelRows (.ok [wsC6]) none 0).map StreamRun.batches = .ok [] ∧
    specBatches (.ok [wsC6]) none 0 = .ok [[[("A", JSVal.null)]]] ∧
    (Except.ok ([] : List (List ImportRecord)) ≠
      (.ok [[[("A", JSVal.null)]]] : Except String (List (List ImportRecord)))) := by
  refine ⟨by decide, by decide, by decide⟩

/-- C6 amended: the concatenation of the emitted batches equals, in file
order, the admitted rows - those data rows after the header row with at least
one cell that lies under a non-blank header and coerces to a non-null,
non-empty value - grouped into batches of exactly 500 except a shorter,
non-empty final batch. -/
theorem c6_amended (wbE : Except String Workbook) (sheet : Option String)
    (skip : Nat) (run : StreamRun)
    (h : streamExcelRows wbE sheet skip = .ok run) :
    run.batches.flatten = run.accumulated ∧
    (∀ ws, resolveSheet wbE sheet = .ok ws →
      run.accumulated = collectRows (headersOf ws skip) skip ws.rows 1) ∧
    (∀ b ∈ run.batches, 0 < b.length ∧ b.length ≤ 500) ∧
    (∀ (i : Nat) (b : List ImportRecord), i + 1 < run.batches.length →
      run.batches[i]? = some b → b.length = 500) := by
  cases hres : resolveSheet wbE sheet with
  | error e => simp [streamExcelRows, hres, Except.map] at h
  | ok ws =>
    simp only [streamExcelRows, hres, Except.map, Except.ok.injEq] at h
    subst h
    refine ⟨chunk500_flatten _, ?_, ?_, ?_⟩
    · intro ws2 hres2
      cases hres2
      rfl
    · intro b hb
      exact mem_chunk500 hb
    · intro i b h1 h2
      exact chunk500_full h1 h2

/-- Witness for C6 amended on the demo sheet. -/
theorem c6_amended_witness :
    demoRun.batches.flatten = demoRun.accumulated ∧
    demoRun.accumulated = collectRows (headersOf wsDemo 0) 0 wsDemo.rows 1 ∧
    (0 < ([[("A", JSVal.num 1)], [("A", JSVal.num 2)]] : List ImportRecord).length ∧
      ([[("A", JSVal.num 1)], [("A", JSVal.num 2)]] : List ImportRecord).length ≤ 500) :=
  have h := c6_amended (.ok [wsDemo]) none 0 demoRun (by decide)
  ⟨h.1, h.2.1 wsDemo (by decide), h.2.2.1 _ (by decide)⟩

/-- C8 counterexample: on a one-row sheet with skipRows = 1 the header offset
lies strictly past the last row, there are zero data rows (the stream emits
nothing), yet validateExcel reports isValid = true - the no-data-rows error is
only raised when the signed row count is exactly 0, not when it is negative -
and validateImport accepts the file as well. -/
theorem c8_counterexample :
    streamExcelRows (.ok [wsC8]) none 1 = .ok ⟨[], []⟩ ∧
    (validateExcel (.ok [wsC8]) [] none 1).isValid = true ∧
    (validateExcel (.ok [wsC8]) [] none 1).rowCount = 0 ∧
    (validateImport envC8 "TargetTable" none 1).isValid = true := by
  refine ⟨by decide, by decide, by decide, by decide⟩

/-- C8 amended: when the sheet resolves, validateExcel reports the
no-data-rows error (hence isValid = false) with rowCount = 0 exactly when
worksheet.rowCount - (1 + skipRows) is exactly zero, and in that case
validateImport also reports isValid = false with the no-data message among
its errors and rowCount = 0 provided its only throwing step does not raise
(the table is missing, or the column-metadata query succeeds); when
getTableColumns raises instead, validateImport still returns isValid = false
and rowCount = 0 but carries only the wrapped validation-error message. When
the offset lies strictly beyond the last row the difference is negative, no
no-data-rows error is recorded, and the returned rowCount is still clamped
to 0. -/
theorem c8_amended (wbE : Except String Workbook) (req : List String)
    (sheet : Option String) (skip : Nat) (ws : Worksheet)
    (h : resolveSheet wbE sheet = .ok ws) :
    (lastRowWithValues ws.rows = 1 + skip →
      (validateExcel wbE req sheet skip).isValid = false ∧
      (⟨"rows", "Excel file contains no data rows"⟩ : VError) ∈
        (validateExcel wbE req sheet skip).errors ∧
      (validateExcel wbE req sheet skip).rowCount = 0 ∧
      (∀ (env : Env) (tn : String), env.workbook = wbE →
        (tableExists env.tableQuery = false ∨ ∃ cols, env.columnsQuery = .ok cols) →
        (validateImport env tn sheet skip).isValid = false ∧
        "Excel file contains no data rows" ∈ (validateImport env tn sheet skip).errors ∧
        (validateImport env tn sheet skip).rowCount = 0) ∧
      (∀ (env : Env) (tn : String), env.workbook = wbE →
        tableExists env.tableQuery = true →
        ∀ msg, env.columnsQuery = .error msg →
        (validateImport env tn sheet skip).isValid = false ∧
        (validateImport env tn sheet skip).errors = ["Validation error: " ++ msg] ∧
        (validateImport env tn sheet skip).rowCount = 0)) ∧
    (lastRowWithValues ws.rows < 1 + skip →
      (validateExcel wbE req sheet skip).rowCount = 0 ∧
      (⟨"rows", "Excel file contains no data rows"⟩ : VError) ∉
        (validateExcel wbE req sheet skip).errors) := by
  constructor
  · intro hz
    have hve := validateExcel_resolved h req skip
    have hcz := validateExcelCore_zero ws req skip hz
    rw [hve]
    refine ⟨hcz.1, hcz.2.1, hcz.2.2, ?_, ?_⟩
    · intro env tn hwb hcols
      by_cases hte : tableExists env.tableQuery = true
      · rcases hcols with hfalse | ⟨cols, hcq⟩
        · rw [hte] at hfalse; cases hfalse
        · have hv : validateExcel env.workbook cols sheet skip =
              validateExcelCore ws cols skip := by
            rw [hwb]; exact validateExcel_resolved h cols skip
          have hc := validateExcelCore_zero ws cols skip hz
          simp only [validateImport, hte,if_pos, getTableColumns, hcq, hv, hc.1,
            Bool.false_eq_true, if_false, List.nil_append]
          refine ⟨?_, ?_, hc.2.2⟩
          · cases hE : (validateExcelCore ws cols skip).errors with
            | nil =>
              have hmem := hc.2.1
              rw [hE] at hmem
              cases hmem
            | cons e es => simp [hE]
          · exact List.mem_map_of_mem _ hc.2.1
      · have hfalse : tableExists env.tableQuery = false := by simpa using hte
        have hv : validateExcel env.workbook [] sheet skip =
            validateExcelCore ws [] skip := by
          rw [hwb]; exact validateExcel_resolved h [] skip
        have hc := validateExcelCore_zero ws [] skip hz
        simp only [validateImport, hfalse, Bool.false_eq_true, if_false, hv, hc.1]
        refine ⟨?_, ?_, hc.2.2⟩
        · simp
        · exact List.mem_append_right _ (List.mem_map_of_mem _ hc.2.1)
    · intro env tn hwb hte msg hcq
      simp [validateImport, hte, getTableColumns, hcq]
  · intro hlt
    rw [validateExcel_resolved h req skip]
    have h0 : ¬(rcOf ws skip = 0) := by unfold rcOf; omega
    have hnp : rcOf ws skip ≤ 0 := by unfold rcOf; omega
    simp only [validateExcelCore, if_neg h0, List.append_nil]
    refine ⟨Int.toNat_of_nonpos hnp, ?_⟩
    split
    · split
      · simp
      · simp
    · simp

/-- Witness for C8 amended: one data sheet, no skip, so the offset leaves
exactly zero rows; the table exists and its column query succeeds, so
validateImport reports the no-data error too. -/
theorem c8_amended_witness :
    (validateExcel (.ok [wsC8]) [] none 0).isValid = false ∧
    (⟨"rows", "Excel file contains no data rows"⟩ : VError) ∈
      (validateExcel (.ok [wsC8]) [] none 0).errors ∧
    (validateExcel (.ok [wsC8]) [] none 0).rowCount = 0 ∧
    ((validateImport envC8 "TargetTable" none 0).isValid = false ∧
      "Excel file contains no data rows" ∈
        (validateImport envC8 "TargetTable" none 0).errors ∧
      (validateImport envC8 "TargetTable" none 0).rowCount = 0) :=
  have hall := (c8_amended (.ok [wsC8]) [] none 0 wsC8 (by decide)).1 (by decide)
  ⟨hall.1, hall.2.1, hall.2.2.1,
   hall.2.2.2.1 envC8 "TargetTable" rfl (Or.inr ⟨[], rfl⟩)⟩

set_option maxRecDepth 100000 in
/-- C9: the generator does not stream. On a sheet with 501 data rows the
accumulated array already holds all 501 admitted rows when the yield loop
starts (the source readFile call has parsed the whole workbook, and the
eachRow pass pushes every row into one array before any yield), strictly more
than the 500 rows of the first emitted batch. -/
theorem c9_materializes_before_first_yield :
    (streamExcelRows (.ok [ws501]) none 0).map
      (fun r => (r.accumulated.length, r.batches.map List.length)) =
      .ok (501, [500, 1]) := by
  decide

/-- Inversion of a successful processImport run: the table existed, the sheet
resolved, and the result and events come from the batch loop over the chunked
admitted rows with the row-count denominator. -/
theorem processImport_ok_inversion (env : Env) (tn : String) (sheet : Option String)
    (mp : List (String × String)) (skip : Nat) (res : ImportOutcome)
    (evs : List ProgressEvent)
    (h : processImport env tn sheet mp skip = .ok (res, evs)) :
    ∃ ws, resolveSheet env.workbook sheet = .ok ws ∧
      tableExists env.tableQuery = true ∧
      res = ⟨(importLoop env.bulkOp env.parsesAsDate tn mp
          (lastRowWithValues ws.rows - (1 + skip))
          (chunk500 (collectRows (headersOf ws skip) skip ws.rows 1)) 0 0 0 0).1,
        (importLoop env.bulkOp env.parsesAsDate tn mp
          (lastRowWithValues ws.rows - (1 + skip))
          (chunk500 (collectRows (headersOf ws skip) skip ws.rows 1)) 0 0 0 0).2.1⟩ ∧
      evs = (importLoop env.bulkOp env.parsesAsDate tn mp
          (lastRowWithValues ws.rows - (1 + skip))
          (chunk500 (collectRows (headersOf ws skip) skip ws.rows 1)) 0 0 0 0).2.2 := by
  by_cases hte : tableExists env.tableQuery = true
  · cases hres : resolveSheet env.workbook sheet with
    | error e =>
      have hg : getRowCount env.workbook sheet skip = .error e := by
        simp [getRowCount, hres, Except.map]
      simp [processImport, hte, hg] at h
    | ok ws =>
      have hg : getRowCount env.workbook sheet skip =
          .ok (lastRowWithValues ws.rows - (1 + skip)) := by
        simp [getRowCount, hres, Except.map]
      have hs : streamExcelRows env.workbook sheet skip =
          .ok ⟨collectRows (headersOf ws skip) skip ws.rows 1,
               chunk500 (collectRows (headersOf ws skip) skip ws.rows 1)⟩ := by
        simp [streamExcelRows, hres, Except.map]
      refine ⟨ws, rfl, hte, ?_⟩
      simp only [processImport, hte, if_true, hg, hs, Except.ok.injEq,
        Prod.mk.injEq] at h
      exact ⟨h.1.symm, h.2.symm⟩
  · have hfalse : tableExists env.tableQuery = false := by simpa using hte
    simp [processImport, hfalse] at h

/-- Math.round of a ratio of naturals with numerator at most the positive
denominator never exceeds 100 percent. -/
theorem jsRound_le_100 (p t : Nat) (h1 : p ≤ t) (h2 : 0 < t) :
    jsRound (((p : ℚ) / (t : ℚ)) * 100) ≤ 100 := by
  have ht : (0 : ℚ) < (t : ℚ) := by exact_mod_cast h2
  have hq : ((p : ℚ) / (t : ℚ)) ≤ 1 := div_le_one_of_le₀ (by exact_mod_cast h1) ht.le
  have h4 : (((p : ℚ) / (t : ℚ)) * 100 + 1 / 2) < ((101 : ℤ) : ℚ) := by
    push_cast
    linarith
  have h5 := Int.floor_lt.mpr h4
  unfold jsRound
  omega

set_option maxRecDepth 100000 in
/-- C1 counterexample: when the first 500-row batch fails and the next 1-row
batch succeeds, the emitted update reports processed = 1 while the rows
inserted so far (1, the ghost success field) plus its failed field (500) sum
to 501: the claimed invariant fails at this input. -/
theorem c1_counterexample :
    ∃ (res : ImportOutcome) (evs : List ProgressEvent),
      processImport env501 "TargetTable" none [] 0 = .ok (res, evs) ∧
      ∃ ev ∈ evs, ev.progress.processed ≠ ev.success + ev.progress.failed := by
  refine ⟨_, _, rfl, _, List.mem_cons_self _ _, by decide⟩

/-- C1 amended: after every progress update, processed equals the rows
successfully inserted so far; rows of batches whose insert raised are counted
in the failed field but never in processed, so processed = inserted + failed
holds only while no batch has failed; processed is monotonically
non-decreasing across successive updates. -/
theorem c1_amended (env : Env) (tn : String) (sheet : Option String)
    (mp : List (String × String)) (skip : Nat) (res : ImportOutcome)
    (evs : List ProgressEvent)
    (h : processImport env tn sheet mp skip = .ok (res, evs)) :
    (∀ ev ∈ evs, ev.progress.processed = ev.success) ∧
    List.Chain' (fun a b : ProgressEvent =>
      a.progress.processed ≤ b.progress.processed) evs := by
  obtain ⟨ws, hres, hte, hres_eq, hevs⟩ :=
    processImport_ok_inversion env tn sheet mp skip res evs h
  subst hevs
  constructor
  · intro ev hev
    exact (importLoop_events env.bulkOp env.parsesAsDate tn mp _ _ 0 0 0 ev hev).1.symm
  · exact importLoop_chain env.bulkOp env.parsesAsDate tn mp _ _ 0 0 0

/-- Witness for C1 amended on the all-success demo environment. -/
theorem c1_amended_witness :
    demoEv.progress.processed = demoEv.success ∧
    List.Chain' (fun a b : ProgressEvent =>
      a.progress.processed ≤ b.progress.processed) demoEvs :=
  ⟨(c1_amended envOK "TargetTable" none [] 0 ⟨2, 0⟩ demoEvs (by rfl)).1
      demoEv (List.mem_cons_self _ _),
   (c1_amended envOK "TargetTable" none [] 0 ⟨2, 0⟩ demoEvs (by rfl)).2⟩

/-- C2: every emitted update carries
percentage = round(processed / total * 100), and the percentage never exceeds
100: the admitted rows never outnumber the row-count denominator, so the
total never undercounts the rows processed and the rounded ratio is saturated
at 100 without an explicit clamp. -/
theorem c2_percentage_saturates (env : Env) (tn : String) (sheet : Option String)
    (mp : List (String × String)) (skip : Nat) (res : ImportOutcome)
    (evs : List ProgressEvent)
    (h : processImport env tn sheet mp skip = .ok (res, evs)) :
    ∀ ev ∈ evs,
      ev.progress.percentage =
        jsRound (((ev.progress.processed : ℚ) / (ev.progress.total : ℚ)) * 100) ∧
      ev.progress.percentage ≤ 100 := by
  obtain ⟨ws, hres, hte, hres_eq, hevs⟩ :=
    processImport_ok_inversion env tn sheet mp skip res evs h
  subst hevs
  intro ev hev
  have hevent := importLoop_events env.bulkOp env.parsesAsDate tn mp
    (lastRowWithValues ws.rows - (1 + skip))
    (chunk500 (collectRows (headersOf ws skip) skip ws.rows 1)) 0 0 0 ev hev
  obtain ⟨-, htot, hpct, -, hub⟩ := hevent
  have hsum : ((chunk500 (collectRows (headersOf ws skip) skip ws.rows 1)).map
      List.length).sum = (collectRows (headersOf ws skip) skip ws.rows 1).length := by
    rw [← List.length_flatten, chunk500_flatten]
  have hadm := collectRows_length_le (headersOf ws skip) skip ws.rows
  have hproc : ev.progress.processed ≤ lastRowWithValues ws.rows - (1 + skip) := by
    omega
  have hpos : 0 < lastRowWithValues ws.rows - (1 + skip) := by
    rcases Nat.eq_zero_or_pos (lastRowWithValues ws.rows - (1 + skip)) with h0 | h0
    · exfalso
      have hlz : (collectRows (headersOf ws skip) skip ws.rows 1).length = 0 := by
        omega
      have : collectRows (headersOf ws skip) skip ws.rows 1 = [] :=
        List.length_eq_zero.mp hlz
      rw [this, chunk500_nil] at hev
      simp [importLoop] at hev
    · exact h0
  refine ⟨by rw [htot]; exact hpct, ?_⟩
  rw [hpct]
  exact jsRound_le_100 _ _ hproc hpos

/-- Witness for C2 on the all-success demo environment. -/
theorem c2_percentage_saturates_witness :
    demoEv.progress.percentage =
      jsRound (((demoEv.progress.processed : ℚ) / (demoEv.progress.total : ℚ)) * 100) ∧
    demoEv.progress.percentage ≤ 100 :=
  c2_percentage_saturates envOK "TargetTable" none [] 0 ⟨2, 0⟩ demoEvs (by rfl)
    demoEv (List.mem_cons_self _ _)

/-- C3: processImport raises exactly when the table-existence check fails or
the total-row-count computation raises, both before any batch is attempted
(once the row count succeeded, the stream setup cannot fail); on a normal
return every batch is accounted for - successCount + failedCount covers all
admitted rows - and failedCount is exactly the total size of the batches whose
insert raised, so batch failures are absorbed and the loop continues. -/
theorem c3_error_boundary (env : Env) (tn : String) (sheet : Option String)
    (mp : List (String × String)) (skip : Nat) :
    ((∃ e, processImport env tn sheet mp skip = .error e) ↔
      (tableExists env.tableQuery = false ∨
        ∃ e, getRowCount env.workbook sheet skip = .error e)) ∧
    (∀ (res : ImportOutcome) (evs : List ProgressEvent),
      processImport env tn sheet mp skip = .ok (res, evs) →
      ∀ run, streamExcelRows env.workbook sheet skip = .ok run →
        res.successCount + res.failedCount = run.accumulated.length ∧
        res.failedCount = errLen env.bulkOp env.parsesAsDate tn mp run.batches 0) := by
  constructor
  · by_cases hte : tableExists env.tableQuery = true
    · cases hres : resolveSheet env.workbook sheet with
      | error e =>
        have hg : getRowCount env.workbook sheet skip = .error e := by
          simp [getRowCount, hres, Except.map]
        have hp : processImport env tn sheet mp skip = .error e := by
          simp [processImport, hte, hg]
        exact iff_of_true ⟨e, hp⟩ (Or.inr ⟨e, hg⟩)
      | ok ws =>
        have hg : getRowCount env.workbook sheet skip =
            .ok (lastRowWithValues ws.rows - (1 + skip)) := by
          simp [getRowCount, hres, Except.map]
        have hs : streamExcelRows env.workbook sheet skip =
            .ok ⟨collectRows (headersOf ws skip) skip ws.rows 1,
                 chunk500 (collectRows (headersOf ws skip) skip ws.rows 1)⟩ := by
          simp [streamExcelRows, hres, Except.map]
        constructor
        · rintro ⟨e, he⟩
          simp [processImport, hte, hg, hs] at he
        · rintro (h1 | ⟨e, he⟩)
          · rw [hte] at h1; cases h1
          · rw [hg] at he; cases he
    · have hfalse : tableExists env.tableQuery = false := by simpa using hte
      have hp : processImport env tn sheet mp skip =
          .error ("Table " ++ tn ++ " does not exist") := by
        simp [processImport, hfalse]
      exact iff_of_true ⟨_, hp⟩ (Or.inl hfalse)
  · intro res evs h run hrun
    obtain ⟨ws, hres, hte, hres_eq, hevs⟩ :=
      processImport_ok_inversion env tn sheet mp skip res evs h
    have hs : streamExcelRows env.workbook sheet skip =
        .ok ⟨collectRows (headersOf ws skip) skip ws.rows 1,
             chunk500 (collectRows (headersOf ws skip) skip ws.rows 1)⟩ := by
      simp [streamExcelRows, hres, Except.map]
    rw [hs] at hrun
    simp only [Except.ok.injEq] at hrun
    subst hrun
    subst hres_eq
    constructor
    · rw [importLoop_total_counts env.bulkOp env.parsesAsDate tn mp
        (lastRowWithValues ws.rows - (1 + skip))
        (chunk500 (collectRows (headersOf ws skip) skip ws.rows 1)) 0 0 0 0]
      rw [← List.length_flatten, chunk500_flatten]
      simp
    · rw [importLoop_failed env.bulkOp env.parsesAsDate tn mp
        (lastRowWithValues ws.rows - (1 + skip))
        (chunk500 (collectRows (headersOf ws skip) skip ws.rows 1)) 0 0 0 0]
      simp

/-- Witness for C3's iff and accounting on the all-success demo environment. -/
theorem c3_error_boundary_witness :
    (⟨2, 0⟩ : ImportOutcome).successCount + (⟨2, 0⟩ : ImportOutcome).failedCount =
      demoRun.accumulated.length ∧
    (⟨2, 0⟩ : ImportOutcome).failedCount =
      errLen envOK.bulkOp envOK.parsesAsDate "TargetTable" [] demoRun.batches 0 :=
  (c3_error_boundary envOK "TargetTable" none [] 0).2 ⟨2, 0⟩ demoEvs (by rfl)
    demoRun (by decide)

end EIM
